import Mathlib

/-!
Verification of the credential/identity and authentication core of the
FastAPI starter-template repository, as a shallow embedding in Lean 4.

The embedded functions follow the Python sources under `src/templates/`:
  * `fastapi_sqlalchemy_async/app/auth.py` — password wrappers,
    `create_access_token`, `verify_token`;
  * `fastapi_sqlalchemy_async/app/services/user_service.py` — the
    `authenticate_user` / `login_user` service;
  * `backend_fastapi_sqlalchemy_async/app/services/auth_service.py` —
    `change_password`, the login that records `last_login`;
  * `backend_fastapi_sqlalchemy/app/services/user_service.py` — registration
    and profile update over the dual-ID model;
  * `fastapi_sqlalchemy/src/accounts/api/login.py` and
    `fastapi_sqlalchemy/src/shared/security.py` — the username-subject login
    and the token-consuming dependency.

The passlib `CryptContext(schemes=["bcrypt"])` internals and the PyJWT
`jwt.encode` / `jwt.decode` internals are third-party code that is not part
of the repository sources; those two leaf components are modelled from the
spec (sections 4.2 and 4.3), as noted on each definition.  Clock values and
bcrypt salts, which the Python code draws from the environment, are passed
as explicit parameters.  Machine timestamps are modelled as `Nat` seconds.
-/

namespace AuthCore

/-! ## Credential hashing (spec section 4.2, passlib bcrypt behind
`verify_password` / `get_password_hash` in
`fastapi_sqlalchemy_async/app/auth.py` lines 11-17) -/

/-- Injective encoding of a list of naturals into one natural, used to model
the irreversible digest of a password as a number. -/
def encodeChars : List Nat → Nat
  | [] => 0
  | x :: xs => Nat.pair x (encodeChars xs) + 1

/-- Encoding of a string through its character codes. -/
def encodeStr (s : String) : Nat :=
  encodeChars (s.data.map Char.toNat)

/-- Modelled from the spec: the salted one-way digest computed by bcrypt.
The spec (section 4.2) requires that the digest depend on the salt embedded
in the stored hash and on the plaintext; collision-freedom across distinct
plaintexts is the spec's stated testable property. -/
def bcryptDigest (salt : Nat) (password : String) : Nat :=
  Nat.pair salt (encodeStr password)

/-- Modelled from the spec: a stored credential string is either a
well-formed output of the hasher (carrying its salt and digest) or an
arbitrary malformed string that is not such an output. -/
inductive StoredHash where
  | wellFormed (salt : Nat) (digest : Nat)
  | malformed (raw : String)
  deriving DecidableEq, Repr

/-- Modelled from the spec: `get_password_hash` (auth.py line 16) delegates
to `pwd_context.hash`, which draws a fresh random salt and returns the
salted digest; the salt is an explicit parameter here. -/
def get_password_hash (salt : Nat) (password : String) : StoredHash :=
  StoredHash.wellFormed salt (bcryptDigest salt password)

/-- Modelled from the spec: `verify_password` (auth.py line 13) delegates to
`pwd_context.verify`, which recomputes the digest using the salt embedded in
the stored hash and compares; per the spec contract it returns `false` both
on a mismatch and on a malformed stored hash, and is total (never raises). -/
def verify_password (plain : String) (hashed : StoredHash) : Bool :=
  match hashed with
  | StoredHash.wellFormed salt digest => bcryptDigest salt plain == digest
  | StoredHash.malformed _ => false

theorem encodeChars_injective :
    ∀ xs ys : List Nat, encodeChars xs = encodeChars ys → xs = ys := by
  intro xs
  induction xs with
  | nil =>
    intro ys h
    cases ys with
    | nil => rfl
    | cons y ys => simp [encodeChars] at h
  | cons x xs ih =>
    intro ys h
    cases ys with
    | nil => simp [encodeChars] at h
    | cons y ys =>
      simp only [encodeChars, Nat.add_right_cancel_iff] at h
      rw [Nat.pair_eq_pair] at h
      rw [h.1, ih ys h.2]

theorem encodeStr_injective : ∀ s t : String, encodeStr s = encodeStr t → s = t := by
  intro s t h
  have h2 := encodeChars_injective _ _ h
  have hinj : Function.Injective Char.toNat := by
    intro a b hab
    exact Char.eq_of_val_eq (UInt32.toNat.inj hab)
  exact String.ext (List.map_injective_iff.mpr hinj h2)

theorem bcryptDigest_injective (salt : Nat) (p1 p2 : String)
    (h : bcryptDigest salt p1 = bcryptDigest salt p2) : p1 = p2 := by
  unfold bcryptDigest at h
  rw [Nat.pair_eq_pair] at h
  exact encodeStr_injective _ _ h.2

/-- Helper: verifying a different password against a stored hash fails. -/
theorem verify_password_of_ne (salt : Nat) (p1 p2 : String) (hne : p1 ≠ p2) :
    verify_password p2 (get_password_hash salt p1) = false := by
  simp only [verify_password, get_password_hash, beq_eq_false_iff_ne, ne_eq]
  intro h
  exact hne (bcryptDigest_injective salt p1 p2 h.symm)

/-! ## Token issuance and verification (spec section 4.3;
`create_access_token` / `verify_token` in
`fastapi_sqlalchemy_async/app/auth.py` lines 19-35, with the PyJWT
encode/decode primitives modelled from the spec) -/

/-- Payload of a bearer token: the optional `sub` claim and the `exp`
timestamp (Unix seconds), as encoded by `create_access_token`. -/
structure JwtPayload where
  sub : Option String
  exp : Nat
  deriving DecidableEq, Repr

/-- Failure kinds of token verification, from spec section 4.3. -/
inductive TokenError where
  | malformed
  | badSignature
  | expired
  deriving DecidableEq, Repr

/-- Modelled from the spec: the symmetric signature the JWT library computes
over the payload with the configured secret.  Verification recomputes this
string and compares it with the token's signature segment. -/
def signature (secret : String) (p : JwtPayload) : String :=
  secret ++ "|" ++ toString p.exp ++ "|" ++
    (match p.sub with
     | none => "-"
     | some s => "S" ++ s)

/-- Wire form of a token: a parseable structure carrying a payload and a
signature segment, or an unparseable string. -/
inductive Token where
  | signed (payload : JwtPayload) (sig : String)
  | garbage (raw : String)
  deriving DecidableEq, Repr

/-- Modelled from the spec: `jwt.decode(token, SECRET_KEY, algorithms=...)`.
Per spec section 4.3 it fails `Malformed` when the structure cannot be
parsed, `BadSignature` when the signature does not validate, and `Expired`
when `now > expiry`; signature validation precedes expiry validation. -/
def jwt_decode (secret : String) (now : Nat) : Token → Except TokenError JwtPayload
  | Token.garbage _ => Except.error TokenError.malformed
  | Token.signed p sig =>
    if sig = signature secret p then
      if now > p.exp then Except.error TokenError.expired
      else Except.ok p
    else Except.error TokenError.badSignature

/-- Default of the `ACCESS_TOKEN_EXPIRE_MINUTES` configuration entry
(auth.py line 9: `config(..., default=30, cast=int)`). -/
def ACCESS_TOKEN_EXPIRE_MINUTES : Nat := 30

/-- Embedding of `create_access_token` (auth.py lines 19-27): the guard
`if expires_delta:` (line 21) is Python truthiness, so the `now +
expires_delta` branch is taken only for a present, nonzero delta — a passed
`timedelta(0)` is falsy and falls back to the default branch
`now + ACCESS_TOKEN_EXPIRE_MINUTES minutes`, exactly like a missing delta.
The remaining claims are signed together with the expiry.  `ttlMinutes` is
the configured value of `ACCESS_TOKEN_EXPIRE_MINUTES` and `expires_delta`
is in seconds. -/
def create_access_token (secret : String) (ttlMinutes : Nat) (now : Nat)
    (sub : Option String) (expires_delta : Option Nat) : Token :=
  let expire := match expires_delta with
    | some d => if 0 < d then now + d else now + ttlMinutes * 60
    | none => now + ttlMinutes * 60
  Token.signed { sub := sub, exp := expire }
    (signature secret { sub := sub, exp := expire })

/-- Embedding of `verify_token` (auth.py lines 29-35): decode the token and
return `payload.get("sub")`; any `InvalidTokenError` is caught and mapped to
`None`.  Totality of this function is the embedded form of the source's
never-raises behaviour. -/
def verify_token (secret : String) (now : Nat) (token : Token) : Option String :=
  match jwt_decode secret now token with
  | Except.ok payload => payload.sub
  | Except.error _ => none

/-- Expiry claim of a parseable token. -/
def tokenExp : Token → Option Nat
  | Token.signed p _ => some p.exp
  | Token.garbage _ => none

/-- Subject claim of a parseable token. -/
def tokenSub : Token → Option String
  | Token.signed p _ => p.sub
  | Token.garbage _ => none

/-- Replacement of the character at index `i` of a string, used to state the
signature-tampering property. -/
def alterChar (s : String) (i : Nat) (c : Char) : String :=
  String.mk (s.data.set i c)

/-- Helper: replacing a character of a string by a different character
yields a different string. -/
theorem alterChar_ne (s : String) (i : Nat) (c : Char)
    (hi : i < s.data.length) (hc : c ≠ s.data.get ⟨i, hi⟩) :
    alterChar s i c ≠ s := by
  intro he
  apply hc
  have hdata : s.data.set i c = s.data := congrArg String.data he
  have h2 : i < (s.data.set i c).length := by simpa using hi
  have h3 := List.getElem_set_self (l := s.data) (i := i) (a := c) h2
  rw [List.getElem_of_eq hdata] at h3
  simpa using h3.symm

/-! ## Account model and directory lookups (spec section 3; the SQLAlchemy
`User` models of `backend_fastapi_sqlalchemy/app/models/user.py` and
`backend_fastapi_sqlalchemy_async/app/models/user.py`) -/

/-- Embedding of the `User` row: internal sequential `id`, external
`public_id` (UUID rendered as a string, `default=uuid.uuid4` at insertion),
unique `username` and `email`, the stored credential hash, the activity and
verification flags, and the timestamps. -/
structure Account where
  id : Nat
  public_id : String
  username : String
  email : String
  hashed_password : StoredHash
  is_active : Bool
  is_verified : Bool
  last_login : Option Nat
  created_at : Nat
  updated_at : Option Nat
  deriving DecidableEq, Repr

/-- Embedding of `get_user_by_email` — `select(User).where(User.email == email)`
with `scalar_one_or_none`, absence modelled as `none`. -/
def find_by_email (db : List Account) (email : String) : Option Account :=
  db.find? (fun u => u.email == email)

/-- Embedding of `get_user_by_username`. -/
def find_by_username (db : List Account) (username : String) : Option Account :=
  db.find? (fun u => u.username == username)

/-- Embedding of `get_user_by_public_id`. -/
def find_by_public_id (db : List Account) (pid : String) : Option Account :=
  db.find? (fun u => u.public_id == pid)

/-! ## Authentication and login
(`fastapi_sqlalchemy_async/app/services/user_service.py` lines 120-145 and
`backend_fastapi_sqlalchemy_async/app/services/auth_service.py` lines 43-80) -/

/-- Embedding of `UserService.authenticate_user` (user_service.py lines
120-126): look up by email; return `None` when the user is absent or the
password does not verify against the stored hash. -/
def authenticate_user (db : List Account) (email password : String) : Option Account :=
  match find_by_email db email with
  | none => none
  | some user =>
    if verify_password password user.hashed_password then some user else none

/-- Failure kinds of the login service: `invalidCredentials` models the
HTTP 401 "Invalid credentials" raise and `accountDisabled` the HTTP 400
"User account is disabled" raise. -/
inductive LoginError where
  | invalidCredentials
  | accountDisabled
  deriving DecidableEq, Repr

/-- Embedding of `UserService.login_user` (user_service.py lines 128-145):
authenticate, reject a missing or mismatched credential with the single
`invalidCredentials` kind, reject an inactive account, then mint a token
whose `sub` claim is the account's email. -/
def login_user (secret : String) (ttl now : Nat) (db : List Account)
    (email password : String) : Except LoginError Token :=
  match authenticate_user db email password with
  | none => Except.error LoginError.invalidCredentials
  | some user =>
    if user.is_active = false then Except.error LoginError.accountDisabled
    else Except.ok (create_access_token secret ttl now (some user.email) none)

/-- Embedding of `AuthService.login_user`
(`backend_fastapi_sqlalchemy_async/app/services/auth_service.py` lines
43-80), which additionally records `last_login = now` on the authenticated
row before minting the token; the returned list is the database state after
the call. -/
def login_user_b (secret : String) (ttl now : Nat) (db : List Account)
    (email password : String) : Except LoginError Token × List Account :=
  match find_by_email db email with
  | none => (Except.error LoginError.invalidCredentials, db)
  | some user =>
    if verify_password password user.hashed_password = false then
      (Except.error LoginError.invalidCredentials, db)
    else if user.is_active = false then
      (Except.error LoginError.accountDisabled, db)
    else
      (Except.ok (create_access_token secret ttl now (some user.email) none),
       db.map fun v =>
         if v.email == email then { v with last_login := some now } else v)

/-! ## Password change, profile update, registration, and the
username-subject variant -/

/-- Failure kinds of `AuthService.change_password`: `userNotFound` models
the HTTP 401 "Usuário não encontrado" raise of `get_current_user` and
`invalidCredentials` the HTTP 400 "Senha atual incorreta" raise — the
spec's `InvalidCredentials` kind. -/
inductive ChangeError where
  | userNotFound
  | invalidCredentials
  deriving DecidableEq, Repr

/-- Embedding of `AuthService.change_password`
(`backend_fastapi_sqlalchemy_async/app/services/auth_service.py` lines
163-185): resolve the current account (here by the token's subject email),
re-verify `current_password` against the stored hash, and only on success
replace `hashed_password` with a fresh hash of `new_password` and bump
`updated_at`.  The returned list is the database state after the call. -/
def change_password (db : List Account) (userEmail : String)
    (currentPw newPw : String) (newSalt now : Nat) :
    Option ChangeError × List Account :=
  match find_by_email db userEmail with
  | none => (some ChangeError.userNotFound, db)
  | some user =>
    if verify_password currentPw user.hashed_password = false then
      (some ChangeError.invalidCredentials, db)
    else
      (none,
       db.map fun v =>
         if v.email == userEmail then
           { v with hashed_password := get_password_hash newSalt newPw,
                    updated_at := some now }
         else v)

/-- Embedding of the `UserUpdate` schema of
`backend_fastapi_sqlalchemy/app/schemas/user.py`: the only updatable fields
are `username`, `email` and `is_active`, each optional. -/
structure UserUpdateData where
  username : Option String
  email : Option String
  is_active : Option Bool
  deriving DecidableEq, Repr

/-- Application of the non-absent update fields to a row, with
`updated_at = now`, as in `UserService.update_user`. -/
def apply_user_update (u : Account) (d : UserUpdateData) (now : Nat) : Account :=
  { u with username := d.username.getD u.username,
           email := d.email.getD u.email,
           is_active := d.is_active.getD u.is_active,
           updated_at := some now }

/-- Failure kind of `UserService.update_user`. -/
inductive UpdateError where
  | notFound
  deriving DecidableEq, Repr

/-- Embedding of `UserService.update_user`
(`backend_fastapi_sqlalchemy/app/services/user_service.py` lines 82-100):
locate the row by `public_id`, raise `NotFoundError` when absent, otherwise
set the present update fields and `updated_at`.  The returned list is the
database state after the call. -/
def update_user (db : List Account) (pid : String) (d : UserUpdateData)
    (now : Nat) : Option UpdateError × List Account :=
  match find_by_public_id db pid with
  | none => (some UpdateError.notFound, db)
  | some _ =>
    (none,
     db.map fun v => if v.public_id == pid then apply_user_update v d now else v)

/-- Failure kinds of `UserService.create_user`: which of the two uniqueness
checks collided. -/
inductive DupError where
  | emailTaken
  | usernameTaken
  deriving DecidableEq, Repr

/-- Embedding of `UserService.create_user`
(`backend_fastapi_sqlalchemy/app/services/user_service.py` lines 18-55):
reject when a row with the same email or username exists, otherwise insert
a row whose `public_id` is the freshly allocated identifier (`allocPid`,
the model's stand-in for the `default=uuid.uuid4` column default). -/
def create_user (db : List Account) (allocPid : String) (newId salt : Nat)
    (username email password : String) (now : Nat) :
    Except DupError (List Account) :=
  match db.find? (fun u => u.email == email || u.username == username) with
  | some existing =>
    Except.error (if existing.email == email then DupError.emailTaken
                  else DupError.usernameTaken)
  | none =>
    Except.ok (db ++
      [{ id := newId, public_id := allocPid, username := username,
         email := email, hashed_password := get_password_hash salt password,
         is_active := true, is_verified := false, last_login := none,
         created_at := now, updated_at := none }])

/-- Embedding of `AccountRepository.authenticate_user`
(`fastapi_sqlalchemy/src/accounts/repository/account_repository.py` lines
62-70): the lookup key of this variant is the username. -/
def authenticate_user_fs (db : List Account) (username password : String) :
    Option Account :=
  match find_by_username db username with
  | none => none
  | some user =>
    if verify_password password user.hashed_password = false then none
    else some user

/-- Failure kinds of the `fastapi_sqlalchemy` login route: HTTP 401
"Invalid username or password" and HTTP 400 "Inactive user". -/
inductive FsLoginError where
  | invalidCredentials
  | inactiveUser
  deriving DecidableEq, Repr

/-- Embedding of the `login` route of
`fastapi_sqlalchemy/src/accounts/api/login.py` lines 11-34: authenticate by
username and mint a token with `data={"sub": user.username}` (line 29). -/
def login_fs (secret : String) (ttl now : Nat) (db : List Account)
    (username password : String) : Except FsLoginError Token :=
  match authenticate_user_fs db username password with
  | none => Except.error FsLoginError.invalidCredentials
  | some user =>
    if user.is_active = false then Except.error FsLoginError.inactiveUser
    else Except.ok (create_access_token secret ttl now (some user.username) none)

/-- Single failure kind of the `get_current_user` dependency: every failure
path raises the one `credentials_exception` (HTTP 401 "Could not validate
credentials"). -/
inductive CredError where
  | credentialsException
  deriving DecidableEq, Repr

/-- Embedding of `get_current_user`
(`fastapi_sqlalchemy/src/shared/security.py` lines 14-46): decode the token
(`jwt.DecodeError` — including a bad signature — and
`jwt.ExpiredSignatureError` both raise the same credentials exception), read
`payload.get('sub')`, reject a missing or empty subject (`if not
subject_email`), then look the subject up as an email and reject when no
such account exists. -/
def get_current_user (secret : String) (now : Nat) (db : List Account)
    (token : Token) : Except CredError Account :=
  match jwt_decode secret now token with
  | Except.error _ => Except.error CredError.credentialsException
  | Except.ok payload =>
    match payload.sub with
    | none => Except.error CredError.credentialsException
    | some s =>
      if s = "" then Except.error CredError.credentialsException
      else
        match find_by_email db s with
        | none => Except.error CredError.credentialsException
        | some user => Except.ok user

/-! ## Concrete data used by the closed witness statements -/

/-- Stored hash of the password "pw" under salt 7. -/
def aliceHash : StoredHash := get_password_hash 7 "pw"

/-- Sample account. -/
def alice : Account :=
  { id := 1, public_id := "uuid-1", username := "alice", email := "a@x.com",
    hashed_password := aliceHash, is_active := true, is_verified := false,
    last_login := none, created_at := 0, updated_at := none }

/-- Sample single-account directory. -/
def demoDb : List Account := [alice]

/-! ## Claim theorems -/

/-- C1: for every stored hash, including values that are not well-formed
outputs of the hasher, and every plaintext, `verify_password` is a total
Boolean function — the embedded form of the never-raises contract — and
returns `false` both when the stored hash is malformed and when the
plaintext is not the hashed password. -/
theorem C1_verify_false_on_wrong_or_malformed (p : String) (h : StoredHash)
    (hbad : (∃ raw, h = StoredHash.malformed raw) ∨
            (∃ salt p0, h = get_password_hash salt p0 ∧ p ≠ p0)) :
    verify_password p h = false := by
  rcases hbad with ⟨raw, rfl⟩ | ⟨salt, p0, rfl, hne⟩
  · rfl
  · exact verify_password_of_ne salt p0 p (fun he => hne he.symm)

/-- Witness for C1 at a malformed stored hash and at a wrong password. -/
theorem C1_verify_false_on_wrong_or_malformed_witness :
    verify_password "pw" (StoredHash.malformed "xyz") = false ∧
    verify_password "x" (get_password_hash 7 "pw") = false :=
  ⟨C1_verify_false_on_wrong_or_malformed "pw" _ (Or.inl ⟨"xyz", rfl⟩),
   C1_verify_false_on_wrong_or_malformed "x" _
     (Or.inr ⟨7, "pw", rfl, by decide⟩)⟩

/-- C3: verifying a password different from the hashed one fails:
`verify(p2, hash(p1)) = false` whenever `p1 ≠ p2`, for every salt. -/
theorem C3_verify_rejects_other_password (salt : Nat) (p1 p2 : String)
    (hne : p1 ≠ p2) :
    verify_password p2 (get_password_hash salt p1) = false :=
  verify_password_of_ne salt p1 p2 hne

/-- Witness for C3 at two concrete distinct passwords. -/
theorem C3_verify_rejects_other_password_witness :
    verify_password "x" (get_password_hash 5 "pw") = false :=
  C3_verify_rejects_other_password 5 "pw" "x" (by decide)

/-- C4: every password verifies against its own hash, and two calls of the
hasher on the same password with distinct fresh salts produce distinct
stored hashes, both of which verify true against the password. -/
theorem C4_hash_roundtrip_salted (s1 s2 : Nat) (p : String) (hs : s1 ≠ s2) :
    verify_password p (get_password_hash s1 p) = true ∧
    verify_password p (get_password_hash s2 p) = true ∧
    get_password_hash s1 p ≠ get_password_hash s2 p := by
  refine ⟨?_, ?_, ?_⟩
  · simp [verify_password, get_password_hash]
  · simp [verify_password, get_password_hash]
  · intro he
    simp only [get_password_hash, StoredHash.wellFormed.injEq] at he
    exact hs he.1

/-- Witness for C4 at a concrete password and two concrete salts. -/
theorem C4_hash_roundtrip_salted_witness :
    verify_password "pw" (get_password_hash 0 "pw") = true ∧
    verify_password "pw" (get_password_hash 1 "pw") = true ∧
    get_password_hash 0 "pw" ≠ get_password_hash 1 "pw" :=
  C4_hash_roundtrip_salted 0 1 "pw" (by decide)

/-- C2: a login for an email bound to no account and a login for an
existing account's email with a password that does not verify against its
stored hash fail with the identical error kind `invalidCredentials`, so the
two runs are indistinguishable by the returned error. -/
theorem C2_login_enumeration_resistant (secret : String) (ttl now1 now2 : Nat)
    (db1 db2 : List Account) (e1 p1 e2 p2 : String) (u : Account)
    (h1 : find_by_email db1 e1 = none)
    (h2 : find_by_email db2 e2 = some u)
    (h3 : verify_password p2 u.hashed_password = false) :
    login_user secret ttl now1 db1 e1 p1 =
      Except.error LoginError.invalidCredentials ∧
    login_user secret ttl now2 db2 e2 p2 =
      Except.error LoginError.invalidCredentials ∧
    login_user secret ttl now1 db1 e1 p1 = login_user secret ttl now2 db2 e2 p2 := by
  have a1 : authenticate_user db1 e1 p1 = none := by
    unfold authenticate_user
    rw [h1]
  have a2 : authenticate_user db2 e2 p2 = none := by
    unfold authenticate_user
    rw [h2]
    simp [h3]
  have l1 : login_user secret ttl now1 db1 e1 p1 =
      Except.error LoginError.invalidCredentials := by
    unfold login_user
    rw [a1]
  have l2 : login_user secret ttl now2 db2 e2 p2 =
      Except.error LoginError.invalidCredentials := by
    unfold login_user
    rw [a2]
  exact ⟨l1, l2, l1.trans l2.symm⟩

/-- Witness for C2: a nonexistent email and a wrong password against the
sample directory produce the same `invalidCredentials` outcome. -/
theorem C2_login_enumeration_resistant_witness :
    login_user "k" 30 0 demoDb "n@x.com" "pw" =
      Except.error LoginError.invalidCredentials ∧
    login_user "k" 30 0 demoDb "a@x.com" "x" =
      Except.error LoginError.invalidCredentials ∧
    login_user "k" 30 0 demoDb "n@x.com" "pw" =
      login_user "k" 30 0 demoDb "a@x.com" "x" :=
  C2_login_enumeration_resistant "k" 30 0 0 demoDb demoDb "n@x.com" "pw"
    "a@x.com" "x" alice (by decide) (by decide) (by decide)

/-- C5: a password change whose current-password guess does not verify
against the stored hash fails with the `invalidCredentials` kind (the code's
HTTP 400 "Senha atual incorreta"), returns the database unchanged, and the
account still authenticates with its old password afterwards. -/
theorem C5_change_password_wrong_current_preserves_hash (db : List Account)
    (em cur new oldPw : String) (salt now : Nat) (u : Account)
    (h1 : find_by_email db em = some u)
    (h2 : verify_password cur u.hashed_password = false)
    (h3 : verify_password oldPw u.hashed_password = true) :
    change_password db em cur new salt now =
      (some ChangeError.invalidCredentials, db) ∧
    authenticate_user (change_password db em cur new salt now).2 em oldPw =
      some u := by
  have hcp : change_password db em cur new salt now =
      (some ChangeError.invalidCredentials, db) := by
    unfold change_password
    rw [h1]
    simp [h2]
  refine ⟨hcp, ?_⟩
  rw [hcp]
  show authenticate_user db em oldPw = some u
  unfold authenticate_user
  rw [h1]
  simp [h3]

/-- Witness for C5: a wrong current-password guess against the sample
directory rejects, and the old password still authenticates. -/
theorem C5_change_password_wrong_current_preserves_hash_witness :
    change_password demoDb "a@x.com" "x" "newpw" 9 10 =
      (some ChangeError.invalidCredentials, demoDb) ∧
    authenticate_user (change_password demoDb "a@x.com" "x" "newpw" 9 10).2
      "a@x.com" "pw" = some alice :=
  C5_change_password_wrong_current_preserves_hash demoDb "a@x.com" "x"
    "newpw" "pw" 9 10 alice (by decide) (by decide) (by decide)

/-- C6: the issued token's expiry equals the issuance time plus the
configured TTL — `now + expires_delta` when a truthy (nonzero) delta is
passed, and `now` plus the configured minutes both when no delta is passed
and when the passed delta is the falsy `timedelta(0)` — and the
configuration default of `ACCESS_TOKEN_EXPIRE_MINUTES` is 30 minutes. -/
theorem C6_token_expiry_is_issued_at_plus_ttl (secret : String)
    (ttl now : Nat) (sub : Option String) :
    tokenExp (create_access_token secret ttl now sub none) =
      some (now + ttl * 60) ∧
    (∀ d : Nat, 0 < d →
      tokenExp (create_access_token secret ttl now sub (some d)) =
        some (now + d)) ∧
    tokenExp (create_access_token secret ttl now sub (some 0)) =
      some (now + ttl * 60) ∧
    ACCESS_TOKEN_EXPIRE_MINUTES = 30 := by
  refine ⟨rfl, ?_, rfl, rfl⟩
  intro d hd
  simp [create_access_token, tokenExp, hd]

/-- Witness for C6 at a concrete configuration, clock, and nonzero delta. -/
theorem C6_token_expiry_is_issued_at_plus_ttl_witness :
    tokenExp (create_access_token "k" 30 0 none none) = some (0 + 30 * 60) ∧
    tokenExp (create_access_token "k" 30 0 none (some 5)) = some (0 + 5) ∧
    tokenExp (create_access_token "k" 30 0 none (some 0)) = some (0 + 30 * 60) :=
  ⟨(C6_token_expiry_is_issued_at_plus_ttl "k" 30 0 none).1,
   (C6_token_expiry_is_issued_at_plus_ttl "k" 30 0 none).2.1 5 (by decide),
   (C6_token_expiry_is_issued_at_plus_ttl "k" 30 0 none).2.2.1⟩

/-- C7: evaluation of the `fastapi_sqlalchemy` login at a concrete account
whose username differs from its email.  The successful login mints a token
whose `sub` claim is the account's username, not its email, and the same
template's `get_current_user` — which reads `sub` as an email — rejects the
freshly minted, correctly signed, unexpired token. -/
theorem C7_login_fs_mints_username_subject :
    login_fs "k" 30 0 demoDb "alice" "pw" =
      Except.ok (create_access_token "k" 30 0 (some "alice") none) ∧
    tokenSub (create_access_token "k" 30 0 (some "alice") none) = some "alice" ∧
    alice.email = "a@x.com" ∧
    tokenSub (create_access_token "k" 30 0 (some "alice") none) ≠ some alice.email ∧
    get_current_user "k" 0 demoDb (create_access_token "k" 30 0 (some "alice") none) =
      Except.error CredError.credentialsException :=
  ⟨rfl, rfl, rfl, by decide, rfl⟩

/-- C8: replacing any character of a valid token's signature segment by a
different character makes decoding fail with the distinct `badSignature`
kind — not `malformed` and not `expired` — and `verify_token` on the
tampered token returns `none` instead of raising. -/
theorem C8_tampered_signature_rejected (secret : String) (p : JwtPayload)
    (now : Nat) (i : Nat) (c : Char)
    (hi : i < (signature secret p).data.length)
    (hc : c ≠ (signature secret p).data.get ⟨i, hi⟩) :
    jwt_decode secret now (Token.signed p (alterChar (signature secret p) i c)) =
      Except.error TokenError.badSignature ∧
    verify_token secret now (Token.signed p (alterChar (signature secret p) i c)) =
      none := by
  have hne := alterChar_ne (signature secret p) i c hi hc
  have hd : jwt_decode secret now
      (Token.signed p (alterChar (signature secret p) i c)) =
      Except.error TokenError.badSignature := by
    simp only [jwt_decode]
    rw [if_neg hne]
  refine ⟨hd, ?_⟩
  unfold verify_token
  rw [hd]

/-- Witness for C8: tampering the first character of a concrete valid
token's signature yields `badSignature` and a `none` verification. -/
theorem C8_tampered_signature_rejected_witness :
    jwt_decode "k" 0
      (Token.signed { sub := some "a", exp := 5 }
        (alterChar (signature "k" { sub := some "a", exp := 5 }) 0 'z')) =
      Except.error TokenError.badSignature ∧
    verify_token "k" 0
      (Token.signed { sub := some "a", exp := 5 }
        (alterChar (signature "k" { sub := some "a", exp := 5 }) 0 'z')) =
      none :=
  C8_tampered_signature_rejected "k" { sub := some "a", exp := 5 } 0 0 'z'
    (by decide) (by decide)

/-- Helper: mapping a row transformer that preserves `public_id` over the
directory preserves the sequence of public identifiers. -/
theorem map_preserves_public_id (db : List Account) (f : Account → Account)
    (hf : ∀ a, (f a).public_id = a.public_id) :
    ((db.map f).map fun a => a.public_id) = db.map fun a => a.public_id := by
  rw [List.map_map]
  exact List.map_congr_left (fun a _ => hf a)

/-- Sample account inserted by the registration step of the C9 witness. -/
def bob : Account :=
  { id := 2, public_id := "pid-9", username := "bob", email := "b@x.com",
    hashed_password := get_password_hash 3 "pw", is_active := true,
    is_verified := false, last_login := none, created_at := 5,
    updated_at := none }

/-- C9: the external identifier is assigned exactly once, at creation, and
no subsequent operation changes it: profile update, password change and
authentication (which records `last_login`) all preserve every row's
`public_id`, and a successful registration appends exactly the freshly
allocated identifier. -/
theorem C9_public_id_immutable (db : List Account) (pid : String)
    (d : UserUpdateData) (now : Nat) (em cur new : String) (salt : Nat)
    (secret : String) (ttl : Nat) (pw : String) (allocPid : String)
    (newId : Nat) (un : String) :
    ((update_user db pid d now).2.map fun a => a.public_id) =
      (db.map fun a => a.public_id) ∧
    ((change_password db em cur new salt now).2.map fun a => a.public_id) =
      (db.map fun a => a.public_id) ∧
    ((login_user_b secret ttl now db em pw).2.map fun a => a.public_id) =
      (db.map fun a => a.public_id) ∧
    (∀ db2, create_user db allocPid newId salt un em pw now = Except.ok db2 →
      (db2.map fun a => a.public_id) =
        (db.map fun a => a.public_id) ++ [allocPid]) := by
  refine ⟨?_, ?_, ?_, ?_⟩
  · unfold update_user
    split
    · rfl
    · exact map_preserves_public_id db _ (fun a => by
        cases hb : (a.public_id == pid) <;> simp [hb, apply_user_update])
  · unfold change_password
    split
    · rfl
    · split
      · rfl
      · exact map_preserves_public_id db _ (fun a => by
          cases hb : (a.email == em) <;> simp [hb])
  · unfold login_user_b
    split
    · rfl
    · split
      · rfl
      · split
        · rfl
        · exact map_preserves_public_id db _ (fun a => by
            cases hb : (a.email == em) <;> simp [hb])
  · intro db2 h
    unfold create_user at h
    split at h
    · exact absurd h (by simp)
    · injection h with h2
      subst h2
      simp [List.map_append]

/-- Witness for C9: a concrete profile update preserves the identifiers of
the sample directory, and a concrete registration appends exactly the
allocated identifier. -/
theorem C9_public_id_immutable_witness :
    ((update_user demoDb "uuid-1"
        { username := none, email := none, is_active := some false } 5).2.map
        fun a => a.public_id) = (demoDb.map fun a => a.public_id) ∧
    ((demoDb ++ [bob]).map fun a => a.public_id) =
      (demoDb.map fun a => a.public_id) ++ ["pid-9"] :=
  ⟨(C9_public_id_immutable demoDb "uuid-1"
      { username := none, email := none, is_active := some false } 5
      "b@x.com" "c" "d" 3 "k" 30 "pw" "pid-9" 2 "bob").1,
   (C9_public_id_immutable demoDb "uuid-1"
      { username := none, email := none, is_active := some false } 5
      "b@x.com" "c" "d" 3 "k" 30 "pw" "pid-9" 2 "bob").2.2.2
     (demoDb ++ [bob]) rfl⟩

/-- C10 counterexample: a correctly signed, unexpired token whose subject
claim is present but empty.  `verify_token` returns the empty string — a
value distinct from `none` — refuting the claim that it returns `None` for
an empty subject. -/
theorem C10_empty_subject_counterexample :
    jwt_decode "k" 0
      (Token.signed { sub := some "", exp := 100 }
        (signature "k" { sub := some "", exp := 100 })) =
      Except.ok { sub := some "", exp := 100 } ∧
    verify_token "k" 0
      (Token.signed { sub := some "", exp := 100 }
        (signature "k" { sub := some "", exp := 100 })) = some "" ∧
    verify_token "k" 0
      (Token.signed { sub := some "", exp := 100 }
        (signature "k" { sub := some "", exp := 100 })) ≠ none :=
  ⟨rfl, rfl, by decide⟩

/-- C10 as amended: for a correctly signed, unexpired token, `verify_token`
returns `none` when the payload lacks a `sub` claim, and returns the empty
string (a falsy value, not `None`) when the subject is present but empty;
`get_current_user` rejects both cases with the same credentials error it
uses for malformed or expired tokens, so a valid signature alone never
authenticates a caller. -/
theorem C10_missing_or_empty_subject_rejected (secret : String)
    (db : List Account) (now e : Nat) (h : ¬ now > e) :
    verify_token secret now
      (Token.signed { sub := none, exp := e }
        (signature secret { sub := none, exp := e })) = none ∧
    verify_token secret now
      (Token.signed { sub := some "", exp := e }
        (signature secret { sub := some "", exp := e })) = some "" ∧
    get_current_user secret now db
      (Token.signed { sub := none, exp := e }
        (signature secret { sub := none, exp := e })) =
      Except.error CredError.credentialsException ∧
    get_current_user secret now db
      (Token.signed { sub := some "", exp := e }
        (signature secret { sub := some "", exp := e })) =
      Except.error CredError.credentialsException ∧
    get_current_user secret now db (Token.garbage "x") =
      Except.error CredError.credentialsException := by
  have hd1 : jwt_decode secret now
      (Token.signed { sub := none, exp := e }
        (signature secret { sub := none, exp := e })) =
      Except.ok { sub := none, exp := e } := by
    simp [jwt_decode, h]
  have hd2 : jwt_decode secret now
      (Token.signed { sub := some "", exp := e }
        (signature secret { sub := some "", exp := e })) =
      Except.ok { sub := some "", exp := e } := by
    simp [jwt_decode, h]
  refine ⟨?_, ?_, ?_, ?_, rfl⟩
  · unfold verify_token
    rw [hd1]
  · unfold verify_token
    rw [hd2]
  · unfold get_current_user
    rw [hd1]
  · unfold get_current_user
    rw [hd2]
    simp

/-- Witness for C10 as amended, at a concrete secret and clock. -/
theorem C10_missing_or_empty_subject_rejected_witness :
    verify_token "k" 0
      (Token.signed { sub := none, exp := 0 }
        (signature "k" { sub := none, exp := 0 })) = none ∧
    verify_token "k" 0
      (Token.signed { sub := some "", exp := 0 }
        (signature "k" { sub := some "", exp := 0 })) = some "" ∧
    get_current_user "k" 0 []
      (Token.signed { sub := none, exp := 0 }
        (signature "k" { sub := none, exp := 0 })) =
      Except.error CredError.credentialsException ∧
    get_current_user "k" 0 []
      (Token.signed { sub := some "", exp := 0 }
        (signature "k" { sub := some "", exp := 0 })) =
      Except.error CredError.credentialsException ∧
    get_current_user "k" 0 [] (Token.garbage "x") =
      Except.error CredError.credentialsException :=
  C10_missing_or_empty_subject_rejected "k" [] 0 0 (by decide)

end AuthCore
